import Mathlib

/-!
Verification of the rewards-ledger / watering-streak / fraud-scoring core of
the Carbon_Credit_Blockchain repository.

The definitions below are a shallow embedding of the Python source:
* `add_points` embeds `JoyoDatabase.add_points` (database.py
  and database_postgres.py, identical logic); the `points_ledger` table has a
  `UNIQUE NOT NULL` constraint on `transaction_id`, so a duplicate insert
  raises and the surrounding transaction is rolled back, which the embedding
  models as `Except.error` with the caller keeping the old state.
* `update_watering_streak` embeds `JoyoDatabase.update_watering_streak`
  (identical in both backends).  Calendar dates are embedded as integers
  (day numbers), `yesterday = today - 1`.  The row-absent branch mirrors the
  `INSERT` that supplies only `current_streak`, `total_waterings` and
  `last_watered_date`, leaving `longest_streak` and `streak_bonus_points`
  at their column default 0.
* `record_watering` embeds the database-effect slice of the
  `POST /plants/.../water` handler in api_joyo_core.py with the AI service
  disabled (the `plant_verification is None` path): streak update, activity
  recording, 5 base points plus streak bonus via `add_points`, and the
  response construction that reads `streak_result` at the key
  `total_waterings`, which is absent from the duplicate-day return value
  (a `KeyError`, embedded as `Except.error` after the point award committed).
* `count_health_scans_last_days` and `scan_plant_health` embed the scan
  throttle of `POST /plants/.../health-scan`; timestamps are integers
  (seconds) and the SQL window `scan_date >= NOW() - INTERVAL n days` becomes
  `now - days * 86400 <= scan_date`.
* `detect_fraud_patterns` and `aggregate_validations` embed
  enhanced_ai_validator.py; python floats are embedded as rationals.
* `passed_stages` / `verification_passed` embed the stage-6 quorum of the
  complete-verification endpoint in api_joyo_core.py.
-/

namespace Joyo

/-! ## Ledger (add_points) -/

structure PointsTx where
  transaction_id : String
  user_id : String
  plant_id : Option String
  activity_id : Option String
  transaction_type : String
  points : ℤ
  description : Option String
  deriving DecidableEq

structure DBState where
  ledger : List PointsTx
  userPoints : List (String × ℤ)
  plantPoints : List (String × ℤ)
  deriving DecidableEq

def lookupTotal (m : List (String × ℤ)) (k : String) : Option ℤ :=
  (m.find? (fun p => p.1 == k)).map Prod.snd

def bumpTotal (m : List (String × ℤ)) (k : String) (d : ℤ) : List (String × ℤ) :=
  m.map (fun p => if p.1 == k then (p.1, p.2 + d) else p)

structure AddPointsResult where
  success : Bool
  points_added : ℤ
  total_points : ℤ
  transaction_id : String
  deriving DecidableEq

def uniqueViolationMsg : String :=
  "UNIQUE constraint failed: points_ledger.transaction_id"

def add_points (st : DBState) (transaction_id user_id : String) (points : ℤ)
    (transaction_type : String) (description : Option String)
    (plant_id activity_id : Option String) :
    Except String (AddPointsResult × DBState) :=
  if st.ledger.any (fun t => t.transaction_id == transaction_id) then
    Except.error uniqueViolationMsg
  else
    let st1 : DBState :=
      { ledger := st.ledger ++
          [{ transaction_id := transaction_id, user_id := user_id,
             plant_id := plant_id, activity_id := activity_id,
             transaction_type := transaction_type, points := points,
             description := description }]
        userPoints := bumpTotal st.userPoints user_id points
        plantPoints :=
          match plant_id with
          | some p => bumpTotal st.plantPoints p points
          | none => st.plantPoints }
    let total := (lookupTotal st1.userPoints user_id).getD points
    Except.ok
      ({ success := true, points_added := points, total_points := total,
         transaction_id := transaction_id }, st1)

/-! ## Streak engine (update_watering_streak) -/

structure StreakRow where
  currentStreak : ℤ
  longestStreak : ℤ
  lastWateredDate : Option ℤ
  totalWaterings : ℤ
  streakBonusPoints : ℤ
  deriving DecidableEq

structure StreakResult where
  current_streak : ℤ
  longest_streak : ℤ
  bonus_points : ℤ
  total_waterings : Option ℤ
  message : Option String
  deriving DecidableEq

def update_watering_streak (row? : Option StreakRow) (today : ℤ) :
    StreakResult × Option StreakRow :=
  match row? with
  | none =>
      ({ current_streak := 1, longest_streak := 1, bonus_points := 0,
         total_waterings := none, message := none },
       some { currentStreak := 1, longestStreak := 0,
              lastWateredDate := some today, totalWaterings := 1,
              streakBonusPoints := 0 })
  | some row =>
      if row.lastWateredDate = some today then
        ({ current_streak := row.currentStreak,
           longest_streak := row.longestStreak, bonus_points := 0,
           total_waterings := none,
           message := some "Already watered today" }, some row)
      else
        let new_streak :=
          if row.lastWateredDate = some (today - 1) then row.currentStreak + 1
          else 1
        let new_longest := max row.longestStreak new_streak
        let bonus_points : ℤ :=
          if new_streak = 7 then 10
          else if new_streak = 30 then 50
          else if new_streak = 100 then 200
          else 0
        ({ current_streak := new_streak, longest_streak := new_longest,
           bonus_points := bonus_points,
           total_waterings := some (row.totalWaterings + 1), message := none },
         some { currentStreak := new_streak, longestStreak := new_longest,
                lastWateredDate := some today,
                totalWaterings := row.totalWaterings + 1,
                streakBonusPoints := row.streakBonusPoints + bonus_points })

/-! ## Watering endpoint (record_watering, AI disabled path) -/

structure WaterState where
  streak : Option StreakRow
  db : DBState
  deriving DecidableEq

structure WaterResponse where
  success : Bool
  points_earned : ℤ
  bonus_points : ℤ
  total_points : ℤ
  streak_current : ℤ
  streak_longest : ℤ
  streak_total_waterings : ℤ
  deriving DecidableEq

def record_watering (st : WaterState) (today : ℤ)
    (user_id plant_id transaction_id activity_id : String) :
    Except String WaterResponse × WaterState :=
  let step := update_watering_streak st.streak today
  let streak_result := step.1
  let base_points : ℤ := 5
  let bonus_points := streak_result.bonus_points
  let total_points := base_points + bonus_points
  match add_points st.db transaction_id user_id total_points "watering" none
      (some plant_id) (some activity_id) with
  | Except.error e => (Except.error e, { st with streak := step.2 })
  | Except.ok (points_result, db1) =>
      let st1 : WaterState := { streak := step.2, db := db1 }
      match streak_result.total_waterings with
      | none => (Except.error "KeyError: total_waterings", st1)
      | some tw =>
          (Except.ok
            { success := true, points_earned := total_points,
              bonus_points := bonus_points,
              total_points := points_result.total_points,
              streak_current := streak_result.current_streak,
              streak_longest := streak_result.longest_streak,
              streak_total_waterings := tw }, st1)

/-! ## Scan throttle (count_health_scans_last_days, scan_plant_health) -/

structure ScanRecordRow where
  scan_id : String
  plant_id : String
  scan_date : ℤ
  deriving DecidableEq

def count_health_scans_last_days (scans : List ScanRecordRow)
    (plant_id : String) (days : ℤ) (now : ℤ) : ℕ :=
  (scans.filter
    (fun s => s.plant_id == plant_id &&
      decide (now - days * 86400 ≤ s.scan_date))).length

structure ScanState where
  scans : List ScanRecordRow
  db : DBState
  deriving DecidableEq

structure ScanOutcome where
  admitted : Bool
  aiCalled : Bool
  deriving DecidableEq

def scan_plant_health (st : ScanState)
    (plant_id user_id scan_id transaction_id activity_id : String)
    (now : ℤ) : ScanOutcome × ScanState :=
  if 2 ≤ count_health_scans_last_days st.scans plant_id 7 now then
    ({ admitted := false, aiCalled := false }, st)
  else
    let scans1 := st.scans ++
      [{ scan_id := scan_id, plant_id := plant_id, scan_date := now }]
    match add_points st.db transaction_id user_id 5 "health_scan" none
        (some plant_id) (some activity_id) with
    | Except.error _ => ({ admitted := true, aiCalled := true },
        { scans := scans1, db := st.db })
    | Except.ok (_, db1) => ({ admitted := true, aiCalled := true },
        { scans := scans1, db := db1 })

/-! ## Fraud risk scorer (detect_fraud_patterns) -/

structure HistoricalData where
  avg_trees_per_day : Option ℚ
  verifications_last_24h : Option ℤ
  success_rate : Option ℚ
  deriving DecidableEq

structure FraudResult where
  fraud_detected : Bool
  fraud_indicators : List String
  confidence : ℚ
  recommendation : String
  deriving DecidableEq

def detect_fraud_patterns (trees : ℤ) (hist : Option HistoricalData) :
    FraudResult :=
  let afterHist : ℚ × List String :=
    match hist with
    | none => (1, [])
    | some h =>
        let avg_trees := h.avg_trees_per_day.getD 0
        let p1 : ℚ × List String :=
          if 0 < avg_trees ∧ avg_trees * 3 < (trees : ℚ) then
            (1 - 1/5, ["Unusual spike"])
          else (1, [])
        let recent_count := h.verifications_last_24h.getD 0
        let p2 : ℚ × List String :=
          if 10 < recent_count then
            (p1.1 - 3/10, p1.2 ++ ["Too many verifications"])
          else p1
        let success_rate := h.success_rate.getD 100
        if success_rate < 50 then
          (p2.1 - 1/5, p2.2 ++ ["Low success rate"])
        else p2
  let p3 : ℚ × List String :=
    if 500 < trees then
      (afterHist.1 - 1/2, afterHist.2 ++ ["Physically implausible"])
    else afterHist
  let recommendation :=
    if p3.1 < 2/5 then "reject"
    else if p3.1 < 7/10 then "manual_review"
    else "approve"
  { fraud_detected := decide (0 < p3.2.length)
    fraud_indicators := p3.2
    confidence := max 0 p3.1
    recommendation := recommendation }

/-- Modelled from the claim wording for comparison: confidence starts at 1.0,
subtracts 0.2 for a volume spike, 0.3 for submission frequency, 0.2 for a low
historical success rate and 0.5 for an implausible claimed count, then is
clamped to the interval [0, 1]. -/
def spec_fraud_confidence (trees : ℤ) (hist : Option HistoricalData) : ℚ :=
  let avg? := hist.bind (fun h => h.avg_trees_per_day)
  let recent? := hist.bind (fun h => h.verifications_last_24h)
  let rate? := hist.bind (fun h => h.success_rate)
  let d1 : ℚ :=
    match avg? with
    | some a => if 0 < a ∧ 3 * a < (trees : ℚ) then 1/5 else 0
    | none => 0
  let d2 : ℚ :=
    match recent? with
    | some r => if 10 < r then 3/10 else 0
    | none => 0
  let d3 : ℚ :=
    match rate? with
    | some r => if r < 50 then 1/5 else 0
    | none => 0
  let d4 : ℚ := if 500 < trees then 1/2 else 0
  max 0 (min 1 (1 - d1 - d2 - d3 - d4))

/-! ## Verification aggregator -/

structure Validation where
  confidence : Option ℚ
  recommendation : Option String
  deriving DecidableEq

structure AggResult where
  valid : Bool
  confidence : ℚ
  recommendation : String
  deriving DecidableEq

def qRoundHalfEven (x : ℚ) : ℤ :=
  let n := ⌊x⌋
  if x - n < 1/2 then n
  else if 1/2 < x - n then n + 1
  else if Even n then n else n + 1

def qRound2 (x : ℚ) : ℚ := (qRoundHalfEven (x * 100) : ℚ) / 100

def recommendationsOf (validations : List Validation) : List String :=
  validations.map (fun v => v.recommendation.getD "manual_review")

def aggregate_validations (validations : List Validation) : AggResult :=
  let confidences := validations.map (fun v => v.confidence.getD (1/2))
  let recommendations := recommendationsOf validations
  let overall_confidence : ℚ :=
    if confidences.length ≠ 0 then confidences.sum / confidences.length
    else 1/2
  let final_recommendation :=
    if "reject" ∈ recommendations then "reject"
    else if "manual_review" ∈ recommendations then "manual_review"
    else "approve"
  { valid := final_recommendation == "approve"
    confidence := qRound2 overall_confidence
    recommendation := final_recommendation }

def passed_stages (recognition_success health_success fraud_valid : Bool) :
    ℕ :=
  (if recognition_success then 1 else 0) +
  (if health_success then 1 else 0) +
  (if fraud_valid then 1 else 0)

def verification_passed (recognition_success health_success fraud_valid :
    Bool) : Bool :=
  decide (3 ≤ passed_stages recognition_success health_success fraud_valid)

/-! ## Geo verification (joyo_ai_services/geo_verification.py)

Real-valued model of `_haversine_distance`, `verify_against_profile` and
`verify_location_consistency`.  `math.radians`, `sin`, `cos`, `sqrt`,
`atan2` are embedded by their real counterparts; python `round(x, 2)`
(round half to even on the value scaled by 100) is embedded by `pyRound2`.
-/

noncomputable def radians (d : ℝ) : ℝ := d * Real.pi / 180

open scoped Classical in
noncomputable def atan2 (y x : ℝ) : ℝ :=
  if 0 < x then Real.arctan (y / x)
  else if x < 0 ∧ 0 ≤ y then Real.arctan (y / x) + Real.pi
  else if x < 0 ∧ y < 0 then Real.arctan (y / x) - Real.pi
  else if x = 0 ∧ 0 < y then Real.pi / 2
  else if x = 0 ∧ y < 0 then -(Real.pi / 2)
  else 0

noncomputable def haversine_distance (lat1 lon1 lat2 lon2 : ℝ) : ℝ :=
  let R : ℝ := 6371000
  let rlat1 := radians lat1
  let rlon1 := radians lon1
  let rlat2 := radians lat2
  let rlon2 := radians lon2
  let dlat := rlat2 - rlat1
  let dlon := rlon2 - rlon1
  let a := Real.sin (dlat / 2) ^ 2 +
    Real.cos rlat1 * Real.cos rlat2 * Real.sin (dlon / 2) ^ 2
  let c := 2 * atan2 (Real.sqrt a) (Real.sqrt (1 - a))
  R * c

open scoped Classical in
noncomputable def pyRoundHalfEven (x : ℝ) : ℤ :=
  let n := ⌊x⌋
  if x - n < 1/2 then n
  else if 1/2 < x - n then n + 1
  else if Even n then n else n + 1

noncomputable def pyRound2 (x : ℝ) : ℝ := (pyRoundHalfEven (x * 100) : ℝ) / 100

structure LocationProfile where
  latitude : ℝ
  longitude : ℝ
  verification_radius_meters : ℝ

structure VerifyResult where
  verification_passed : Prop
  distance_from_profile_meters : ℝ

noncomputable def verify_against_profile (profile : LocationProfile)
    (new_latitude new_longitude : ℝ) : VerifyResult :=
  let distance := haversine_distance profile.latitude profile.longitude
    new_latitude new_longitude
  { verification_passed := distance ≤ profile.verification_radius_meters
    distance_from_profile_meters := pyRound2 distance }

structure LocPoint where
  latitude : ℝ
  longitude : ℝ

structure ConsistencyResult where
  success : Bool
  consistent : Bool
  message : Option String
  average_distance_meters : Option ℝ
  max_distance_meters : Option ℝ
  threshold_meters : Option ℝ
  total_checks : Option ℕ
  inconsistencies_found : Option ℕ
  inconsistency_details : Option (List (ℕ × ℝ))
  fraud_risk : Option String

open scoped Classical in
noncomputable def verify_location_consistency
    (historical_locations : List LocPoint)
    (max_distance_meters : ℝ) : ConsistencyResult :=
  if historical_locations.length < 2 then
    { success := true, consistent := true,
      message := some "Insufficient data for consistency check",
      average_distance_meters := none, max_distance_meters := none,
      threshold_meters := none, total_checks := none,
      inconsistencies_found := none, inconsistency_details := none,
      fraud_risk := none }
  else
    let pairs := historical_locations.zip historical_locations.tail
    let distances := pairs.map (fun pq =>
      haversine_distance pq.1.latitude pq.1.longitude
        pq.2.latitude pq.2.longitude)
    let inconsistencies :=
      ((List.range distances.length).zip distances).filterMap
        (fun idx_d =>
          if max_distance_meters < idx_d.2 then some (idx_d.1 + 1, idx_d.2)
          else none)
    let avg_distance : ℝ :=
      if distances.length ≠ 0 then distances.sum / distances.length else 0
    let max_distance : ℝ := (distances.max?).getD 0
    { success := true,
      consistent := decide (inconsistencies.length = 0),
      message := none,
      average_distance_meters := some (pyRound2 avg_distance),
      max_distance_meters := some (pyRound2 max_distance),
      threshold_meters := some max_distance_meters,
      total_checks := some distances.length,
      inconsistencies_found := some inconsistencies.length,
      inconsistency_details := some inconsistencies,
      fraud_risk := some
        (if 2 < inconsistencies.length then "high"
         else if 0 < inconsistencies.length then "medium" else "low") }

/-! ## Concrete instances used by witnesses and counterexamples -/

def replayTx : PointsTx :=
  { transaction_id := "TXN1", user_id := "U1", plant_id := none,
    activity_id := none, transaction_type := "watering", points := 5,
    description := none }

def replayState : DBState :=
  { ledger := [replayTx], userPoints := [("U1", 5)], plantPoints := [] }

def c2Row : StreakRow :=
  { currentStreak := 3, longestStreak := 5, lastWateredDate := some 10,
    totalWaterings := 4, streakBonusPoints := 0 }

def c2Db : DBState :=
  { ledger := [], userPoints := [("U1", 20)], plantPoints := [("P1", 20)] }

def c3Row : StreakRow :=
  { currentStreak := 3, longestStreak := 5, lastWateredDate := some 9,
    totalWaterings := 4, streakBonusPoints := 0 }

def c4Row : StreakRow :=
  { currentStreak := 6, longestStreak := 6, lastWateredDate := some 9,
    totalWaterings := 6, streakBonusPoints := 0 }

def throttleState : ScanState :=
  { scans :=
      [{ scan_id := "S1", plant_id := "P1", scan_date := 999000 },
       { scan_id := "S2", plant_id := "P1", scan_date := 999500 }]
    db := { ledger := [], userPoints := [("U1", 20)], plantPoints := [] } }

def refProfile : LocationProfile :=
  { latitude := 0, longitude := 0, verification_radius_meters := 50 }

/-! ## Theorems -/

/-- C1: the claim requires re-submission of an already used transactionId to
be a no-op returning the existing result; the code instead violates the
UNIQUE constraint on points_ledger.transaction_id, so the append raises (the
surrounding transaction is rolled back) and no result is returned. -/
theorem add_points_replay_unique_violation
    (st : DBState) (txid uid : String) (pts : ℤ) (ttype : String)
    (descr : Option String) (pid aid : Option String)
    (h : (st.ledger.any fun t => t.transaction_id == txid) = true) :
    add_points st txid uid pts ttype descr pid aid =
      Except.error uniqueViolationMsg := by
  unfold add_points
  rw [if_pos h]

/-- C1 witness: a ledger already holding transaction TXN1 makes a replayed
append with the same id fail with the unique-constraint error. -/
theorem add_points_replay_unique_violation_witness :
    ((replayState.ledger.any fun t => t.transaction_id == "TXN1") = true) ∧
    add_points replayState "TXN1" "U1" 5 "watering" none none none =
      Except.error uniqueViolationMsg :=
  ⟨rfl, add_points_replay_unique_violation replayState "TXN1" "U1" 5
    "watering" none none none rfl⟩

/-- C5: the claim requires the stored longestStreak to equal the maximum
currentStreak ever observed, including on the initialization path; the
initializing INSERT supplies only current_streak, total_waterings and
last_watered_date, so the stored row has longestStreak = 0 (column default)
while currentStreak = 1, even though the returned dict reports
longest_streak = 1. -/
theorem streak_init_longest_default_zero (today : ℤ) :
    ∃ row, (update_watering_streak none today).2 = some row ∧
      row.longestStreak = 0 ∧ row.currentStreak = 1 ∧
      row.longestStreak < row.currentStreak ∧
      (update_watering_streak none today).1.longest_streak = 1 :=
  ⟨_, rfl, rfl, rfl, by norm_num, rfl⟩

/-- C3: for an existing streak row and a day different from
lastWateredDate, one streak update yields currentStreak + 1 when
lastWateredDate = today - 1 and 1 otherwise, stores
longestStreak = max(old longestStreak, new currentStreak), and increments
totalWaterings by exactly 1 (both in the returned dict and in the stored
row). -/
theorem update_watering_streak_transition
    (row : StreakRow) (today : ℤ)
    (h : row.lastWateredDate ≠ some today) :
    (row.lastWateredDate = some (today - 1) →
      (update_watering_streak (some row) today).1.current_streak =
        row.currentStreak + 1) ∧
    (row.lastWateredDate ≠ some (today - 1) →
      (update_watering_streak (some row) today).1.current_streak = 1) ∧
    (update_watering_streak (some row) today).1.longest_streak =
      max row.longestStreak
        (update_watering_streak (some row) today).1.current_streak ∧
    (update_watering_streak (some row) today).1.total_waterings =
      some (row.totalWaterings + 1) ∧
    (update_watering_streak (some row) today).2 =
      some { currentStreak :=
               (update_watering_streak (some row) today).1.current_streak,
             longestStreak :=
               max row.longestStreak
                 (update_watering_streak (some row) today).1.current_streak,
             lastWateredDate := some today,
             totalWaterings := row.totalWaterings + 1,
             streakBonusPoints := row.streakBonusPoints +
               (update_watering_streak (some row) today).1.bonus_points } := by
  by_cases hy : row.lastWateredDate = some (today - 1) <;>
    simp [update_watering_streak, h, hy]

/-- C3 witness: a row last watered on day 9 with streak 3, updated on day
10, moves to streak 4, longest max(5,4) = 5, totalWaterings 5. -/
theorem update_watering_streak_transition_witness :
    (c3Row.lastWateredDate ≠ some 10) ∧
    ((c3Row.lastWateredDate = some (10 - 1) →
      (update_watering_streak (some c3Row) 10).1.current_streak =
        c3Row.currentStreak + 1) ∧
    (c3Row.lastWateredDate ≠ some (10 - 1) →
      (update_watering_streak (some c3Row) 10).1.current_streak = 1) ∧
    (update_watering_streak (some c3Row) 10).1.longest_streak =
      max c3Row.longestStreak
        (update_watering_streak (some c3Row) 10).1.current_streak ∧
    (update_watering_streak (some c3Row) 10).1.total_waterings =
      some (c3Row.totalWaterings + 1) ∧
    (update_watering_streak (some c3Row) 10).2 =
      some { currentStreak :=
               (update_watering_streak (some c3Row) 10).1.current_streak,
             longestStreak :=
               max c3Row.longestStreak
                 (update_watering_streak (some c3Row) 10).1.current_streak,
             lastWateredDate := some 10,
             totalWaterings := c3Row.totalWaterings + 1,
             streakBonusPoints := c3Row.streakBonusPoints +
               (update_watering_streak (some c3Row) 10).1.bonus_points }) :=
  ⟨by decide, update_watering_streak_transition c3Row 10 (by decide)⟩

/-- C4: the emitted milestone bonus is 10 exactly when the new
currentStreak equals 7, 50 exactly at 30, 200 exactly at 100, 0 in every
other case (never when the streak merely exceeds a milestone), and a
nonzero bonus can only arise on a consecutive-day watering that moved the
streak from milestone - 1 to the milestone (so each bonus is granted only
at the instant the streak first reaches that value). -/
theorem streak_milestone_bonus_exact (row? : Option StreakRow) (today : ℤ) :
    ((update_watering_streak row? today).1.bonus_points = 10 ↔
      (update_watering_streak row? today).1.message = none ∧
      (update_watering_streak row? today).1.current_streak = 7) ∧
    ((update_watering_streak row? today).1.bonus_points = 50 ↔
      (update_watering_streak row? today).1.message = none ∧
      (update_watering_streak row? today).1.current_streak = 30) ∧
    ((update_watering_streak row? today).1.bonus_points = 200 ↔
      (update_watering_streak row? today).1.message = none ∧
      (update_watering_streak row? today).1.current_streak = 100) ∧
    ((update_watering_streak row? today).1.current_streak ≠ 7 →
      (update_watering_streak row? today).1.current_streak ≠ 30 →
      (update_watering_streak row? today).1.current_streak ≠ 100 →
      (update_watering_streak row? today).1.bonus_points = 0) ∧
    ((update_watering_streak row? today).1.bonus_points ≠ 0 →
      ∃ row, row? = some row ∧ row.lastWateredDate = some (today - 1) ∧
        (update_watering_streak row? today).1.current_streak =
          row.currentStreak + 1) := by
  cases row? with
  | none => simp [update_watering_streak]
  | some row =>
      by_cases hdup : row.lastWateredDate = some today
      · simp [update_watering_streak, hdup]
      · by_cases hy : row.lastWateredDate = some (today - 1) <;>
          simp only [update_watering_streak, hdup, hy, if_true, if_false,
            if_neg, if_pos] <;>
          split_ifs <;> simp_all

/-- C4 witness: a consecutive-day watering moving the streak from 6 to 7
emits the 10-point bonus. -/
theorem streak_milestone_bonus_exact_witness :
    (update_watering_streak (some c4Row) 10).1.bonus_points = 10 :=
  (streak_milestone_bonus_exact (some c4Row) 10).1.mpr ⟨by decide, by decide⟩

/-- C2: the claim requires a duplicate same-day watering to leave the
ledger unchanged and append no transaction; the streak update is indeed a
no-op returning bonus 0 with an Already-watered message, but the
record_watering handler still appends a 5-point watering transaction,
bumps the user and plant totals by 5, and only afterwards fails with a
KeyError (HTTP 500) because the duplicate return value has no
total_waterings key. -/
theorem record_watering_duplicate_day_appends_points
    (row : StreakRow) (db : DBState) (today : ℤ)
    (uid pid txid aid : String)
    (hdup : row.lastWateredDate = some today)
    (hfresh : (db.ledger.any fun t => t.transaction_id == txid) = false) :
    record_watering { streak := some row, db := db } today uid pid txid aid =
      (Except.error "KeyError: total_waterings",
       { streak := some row,
         db :=
           { ledger := db.ledger ++
               [{ transaction_id := txid, user_id := uid,
                  plant_id := some pid, activity_id := some aid,
                  transaction_type := "watering", points := 5,
                  description := none }],
             userPoints := bumpTotal db.userPoints uid 5,
             plantPoints := bumpTotal db.plantPoints pid 5 } }) := by
  simp [record_watering, update_watering_streak, add_points, hdup, hfresh]

/-- C2 witness: a plant last watered on day 10 submitted again on day 10
produces the KeyError response while still appending a 5-point watering
transaction and bumping both totals. -/
theorem record_watering_duplicate_day_appends_points_witness :
    (c2Row.lastWateredDate = some 10) ∧
    ((c2Db.ledger.any fun t => t.transaction_id == "TXN9") = false) ∧
    record_watering { streak := some c2Row, db := c2Db } 10 "U1" "P1"
        "TXN9" "ACT9" =
      (Except.error "KeyError: total_waterings",
       { streak := some c2Row,
         db :=
           { ledger := c2Db.ledger ++
               [{ transaction_id := "TXN9", user_id := "U1",
                  plant_id := some "P1", activity_id := some "ACT9",
                  transaction_type := "watering", points := 5,
                  description := none }],
             userPoints := bumpTotal c2Db.userPoints "U1" 5,
             plantPoints := bumpTotal c2Db.plantPoints "P1" 5 } }) :=
  ⟨rfl, rfl, record_watering_duplicate_day_appends_points c2Row c2Db 10
    "U1" "P1" "TXN9" "ACT9" rfl rfl⟩

/-- C6: the health-scan request is admitted iff the count of recorded
scans in the trailing 7-day window is strictly below 2; the AI analysis
runs exactly on admitted requests, and a rejected request (2 or more
recent scans) leaves the whole state unchanged: no scan recorded, no
transaction appended, no totals changed. -/
theorem scan_admission_iff_count_lt_two
    (st : ScanState) (pid uid sid txid aid : String) (now : ℤ) :
    ((scan_plant_health st pid uid sid txid aid now).1.admitted = true ↔
      count_health_scans_last_days st.scans pid 7 now < 2) ∧
    ((scan_plant_health st pid uid sid txid aid now).1.aiCalled =
      (scan_plant_health st pid uid sid txid aid now).1.admitted) ∧
    (2 ≤ count_health_scans_last_days st.scans pid 7 now →
      scan_plant_health st pid uid sid txid aid now =
        ({ admitted := false, aiCalled := false }, st)) := by
  refine ⟨?_, ?_, ?_⟩
  · by_cases hc : 2 ≤ count_health_scans_last_days st.scans pid 7 now
    · simp only [scan_plant_health, if_pos hc]
      simp
      omega
    · cases h : add_points st.db txid uid 5 "health_scan" none (some pid)
        (some aid) with
      | error e =>
          simp only [scan_plant_health, if_neg hc, h]
          simp
          omega
      | ok v =>
          simp only [scan_plant_health, if_neg hc, h]
          simp
          omega
  · by_cases hc : 2 ≤ count_health_scans_last_days st.scans pid 7 now
    · simp only [scan_plant_health, if_pos hc]
    · cases h : add_points st.db txid uid 5 "health_scan" none (some pid)
        (some aid) with
      | error e => simp only [scan_plant_health, if_neg hc, h]
      | ok v => simp only [scan_plant_health, if_neg hc, h]
  · intro h2
    simp only [scan_plant_health, if_pos h2]

/-- C6 witness: a plant with two recorded scans inside the window has its
third scan attempt rejected with no state change. -/
theorem scan_admission_iff_count_lt_two_witness :
    2 ≤ count_health_scans_last_days throttleState.scans "P1" 7 1000000 ∧
    scan_plant_health throttleState "P1" "U1" "S3" "TXN3" "ACT3" 1000000 =
      ({ admitted := false, aiCalled := false }, throttleState) :=
  ⟨by decide,
   (scan_admission_iff_count_lt_two throttleState "P1" "U1" "S3" "TXN3"
      "ACT3" 1000000).2.2 (by decide)⟩

/-- C9: the complete-verification decision is approved iff at least 3 of
the tracked critical checks (recognition, health, fraud validity) pass;
the aggregator recommendation is reject iff some sub-validation
recommends reject, manual review iff none rejects and some recommends
manual review, approve otherwise; and the aggregated validity bit follows
the conservative override (false whenever any sub-validation rejects,
regardless of the averaged confidence). -/
theorem verification_aggregation_spec
    (r h f : Bool) (vals : List Validation) :
    (verification_passed r h f = true ↔ 3 ≤ ([r, h, f].count true)) ∧
    ((aggregate_validations vals).recommendation = "reject" ↔
      "reject" ∈ recommendationsOf vals) ∧
    ((aggregate_validations vals).recommendation = "manual_review" ↔
      ("reject" ∉ recommendationsOf vals ∧
       "manual_review" ∈ recommendationsOf vals)) ∧
    ((aggregate_validations vals).recommendation = "approve" ↔
      ("reject" ∉ recommendationsOf vals ∧
       "manual_review" ∉ recommendationsOf vals)) ∧
    ((aggregate_validations vals).valid = true ↔
      ("reject" ∉ recommendationsOf vals ∧
       "manual_review" ∉ recommendationsOf vals)) := by
  have hs1 : ("reject" : String) ≠ "manual_review" := by decide
  have hs2 : ("reject" : String) ≠ "approve" := by decide
  have hs3 : ("manual_review" : String) ≠ "approve" := by decide
  refine ⟨?_, ?_, ?_, ?_, ?_⟩
  · cases r <;> cases h <;> cases f <;> decide
  all_goals
    by_cases hr : "reject" ∈ recommendationsOf vals <;>
    by_cases hm : "manual_review" ∈ recommendationsOf vals <;>
    simp [aggregate_validations, hr, hm, hs1, hs2, hs3, hs1.symm,
      hs2.symm, hs3.symm]

/-- Bridging lemma: the volume-spike deduction written over a nullable
field equals the same deduction written over the dict default 0. -/
theorem spec_d1_eq (o : Option ℚ) (t : ℚ) :
    (match o with
     | some a => if 0 < a ∧ 3 * a < t then (1:ℚ)/5 else 0
     | none => 0) =
    if 0 < o.getD 0 ∧ o.getD 0 * 3 < t then (1:ℚ)/5 else 0 := by
  cases o with
  | none => simp
  | some a => simp [mul_comm]

/-- Bridging lemma for the submission-frequency deduction. -/
theorem spec_d2_eq (o : Option ℤ) :
    (match o with
     | some r => if 10 < r then (3:ℚ)/10 else 0
     | none => 0) =
    if 10 < o.getD 0 then (3:ℚ)/10 else 0 := by
  cases o with
  | none => norm_num
  | some r => simp

/-- Bridging lemma for the low-success-rate deduction. -/
theorem spec_d3_eq (o : Option ℚ) :
    (match o with
     | some r => if r < 50 then (1:ℚ)/5 else 0
     | none => 0) =
    if o.getD 100 < 50 then (1:ℚ)/5 else 0 := by
  cases o with
  | none => norm_num
  | some r => simp

/-- The reject / manual-review / approve chain computed from the raw
confidence agrees with the thresholds read on the clamped confidence. -/
theorem chain_rec_spec (c : ℚ) (_hc : c ≤ 1) :
    ((if c < 2/5 then "reject"
      else if c < 7/10 then "manual_review" else "approve") = "reject" ↔
      max 0 c < 2/5) ∧
    ((if c < 2/5 then "reject"
      else if c < 7/10 then "manual_review" else "approve") =
        "manual_review" ↔
      (2/5 ≤ max 0 c ∧ max 0 c < 7/10)) ∧
    ((if c < 2/5 then "reject"
      else if c < 7/10 then "manual_review" else "approve") = "approve" ↔
      7/10 ≤ max 0 c) := by
  split_ifs with ha hb
  · have hmax : max 0 c < 2/5 := max_lt_iff.mpr ⟨by norm_num, ha⟩
    refine ⟨iff_of_true rfl hmax, iff_of_false (by decide) ?_,
      iff_of_false (by decide) ?_⟩
    · rintro ⟨h1, -⟩
      linarith
    · intro h1
      linarith
  · have h0 : max 0 c = c := max_eq_right (by linarith [not_lt.mp ha])
    refine ⟨iff_of_false (by decide) ?_, iff_of_true rfl ?_,
      iff_of_false (by decide) ?_⟩
    · rw [h0]
      exact not_lt.mpr (not_lt.mp ha)
    · rw [h0]
      exact ⟨not_lt.mp ha, hb⟩
    · rw [h0]
      exact not_le.mpr hb
  · have h0 : max 0 c = c := max_eq_right (by linarith [not_lt.mp hb])
    refine ⟨iff_of_false (by decide) ?_, iff_of_false (by decide) ?_,
      iff_of_true rfl ?_⟩
    · rw [h0]
      exact not_lt.mpr (by linarith [not_lt.mp hb])
    · rw [h0]
      rintro ⟨-, h1⟩
      exact absurd h1 (not_lt.mp hb).not_lt
    · rw [h0]
      exact not_lt.mp hb

/-- Congruence for the recommendation threshold chain. -/
theorem chain_congr (x y : ℚ) (h : x = y) :
    (if x < 2/5 then "reject"
     else if x < 7/10 then "manual_review" else "approve") =
    (if y < 2/5 then "reject"
     else if y < 7/10 then "manual_review" else "approve") := by
  rw [h]

/-- Closed form of the fraud scorer: its confidence is the clamp of a raw
score c bounded by 1 (and by 1/2 once the implausibility deduction
fires), its recommendation is the threshold chain on c, and the
spec-worded confidence clamp agrees with it. -/
theorem detect_closed (trees : ℤ) (hist : Option HistoricalData) :
    ∃ c : ℚ, c ≤ 1 ∧ (500 < trees → c ≤ 1/2) ∧
      (detect_fraud_patterns trees hist).confidence = max 0 c ∧
      (detect_fraud_patterns trees hist).recommendation =
        (if c < 2/5 then "reject"
         else if c < 7/10 then "manual_review" else "approve") ∧
      spec_fraud_confidence trees hist = max 0 c := by
  cases hist with
  | none =>
      refine ⟨1 - (if 500 < trees then (1:ℚ)/2 else 0), ?_, ?_, ?_, ?_, ?_⟩
      · split_ifs <;> norm_num
      · intro h4
        rw [if_pos h4]
        norm_num
      · simp only [detect_fraud_patterns]
        split_ifs <;> norm_num
      · simp only [detect_fraud_patterns]
        refine chain_congr _ _ ?_
        split_ifs <;> norm_num
      · simp only [spec_fraud_confidence, Option.some_bind, Option.none_bind]
        split_ifs <;> norm_num [min_def, max_def]
  | some hd =>
      refine ⟨1 -
        (if 0 < hd.avg_trees_per_day.getD 0 ∧
            hd.avg_trees_per_day.getD 0 * 3 < (trees : ℚ) then (1:ℚ)/5
         else 0) -
        (if 10 < hd.verifications_last_24h.getD 0 then (3:ℚ)/10 else 0) -
        (if hd.success_rate.getD 100 < 50 then (1:ℚ)/5 else 0) -
        (if 500 < trees then (1:ℚ)/2 else 0), ?_, ?_, ?_, ?_, ?_⟩
      · split_ifs <;> norm_num
      · intro h4
        rw [if_pos h4]
        split_ifs <;> norm_num
      · simp only [detect_fraud_patterns]
        split_ifs <;> norm_num
      · simp only [detect_fraud_patterns]
        refine chain_congr _ _ ?_
        split_ifs <;> norm_num
      · simp only [spec_fraud_confidence, Option.some_bind, Option.none_bind, spec_d1_eq,
          spec_d2_eq, spec_d3_eq]
        split_ifs <;> norm_num [min_def, max_def]

/-- C7: the fraud scorer returns the confidence described by the spec
(1.0 minus 0.2 for a volume spike, 0.3 for submission frequency, 0.2 for
a low success rate, 0.5 for an implausible count, clamped to the unit
interval), its recommendation is reject iff confidence is below 0.4,
manual review iff it lies in [0.4, 0.7), approve otherwise, and a
claimed count of 600 yields confidence at most 0.5 for every history. -/
theorem fraud_scorer_spec (trees : ℤ) (hist : Option HistoricalData) :
    (detect_fraud_patterns trees hist).confidence =
      spec_fraud_confidence trees hist ∧
    0 ≤ (detect_fraud_patterns trees hist).confidence ∧
    (detect_fraud_patterns trees hist).confidence ≤ 1 ∧
    ((detect_fraud_patterns trees hist).recommendation = "reject" ↔
      (detect_fraud_patterns trees hist).confidence < 2/5) ∧
    ((detect_fraud_patterns trees hist).recommendation = "manual_review" ↔
      (2/5 ≤ (detect_fraud_patterns trees hist).confidence ∧
       (detect_fraud_patterns trees hist).confidence < 7/10)) ∧
    ((detect_fraud_patterns trees hist).recommendation = "approve" ↔
      7/10 ≤ (detect_fraud_patterns trees hist).confidence) ∧
    (∀ h2 : Option HistoricalData,
      (detect_fraud_patterns 600 h2).confidence ≤ 1/2) := by
  obtain ⟨c, hc1, -, hconf, hrec, hspec⟩ := detect_closed trees hist
  obtain ⟨hb1, hb2, hb3⟩ := chain_rec_spec c hc1
  refine ⟨hconf.trans hspec.symm, ?_, ?_, ?_, ?_, ?_, ?_⟩
  · rw [hconf]
    exact le_max_left 0 c
  · rw [hconf]
    exact max_le (by norm_num) hc1
  · rw [hconf, hrec]
    exact hb1
  · rw [hconf, hrec]
    exact hb2
  · rw [hconf, hrec]
    exact hb3
  · intro h2
    obtain ⟨c2, -, h600, hconf2, -, -⟩ := detect_closed 600 h2
    rw [hconf2]
    exact max_le (by norm_num) (h600 (by norm_num))

/-- C10: with fewer than two historical points, the consistency check
returns the insufficient-data result: success and consistent are true and
no distances, checks or inconsistencies are reported. -/
theorem verify_location_consistency_short_input
    (maxD : ℝ) (pts : List LocPoint) (h : pts.length < 2) :
    verify_location_consistency pts maxD =
      { success := true, consistent := true,
        message := some "Insufficient data for consistency check",
        average_distance_meters := none, max_distance_meters := none,
        threshold_meters := none, total_checks := none,
        inconsistencies_found := none, inconsistency_details := none,
        fraud_risk := none } := by
  rw [verify_location_consistency, if_pos h]

/-- C10 witness: the empty point list with the default threshold 50. -/
theorem verify_location_consistency_short_input_witness :
    ([] : List LocPoint).length < 2 ∧
    verify_location_consistency [] 50 =
      { success := true, consistent := true,
        message := some "Insufficient data for consistency check",
        average_distance_meters := none, max_distance_meters := none,
        threshold_meters := none, total_checks := none,
        inconsistencies_found := none, inconsistency_details := none,
        fraud_risk := none } :=
  ⟨by norm_num, verify_location_consistency_short_input 50 [] (by norm_num)⟩

/-- The haversine distance from a point to itself is zero. -/
theorem haversine_self (lat lon : ℝ) :
    haversine_distance lat lon lat lon = 0 := by
  simp [haversine_distance, atan2, sub_self, Real.sin_zero,
    Real.sqrt_zero, Real.sqrt_one, Real.arctan_zero, zero_div,
    zero_lt_one]

/-- The haversine distance is symmetric in its two points. -/
theorem haversine_comm (lat1 lon1 lat2 lon2 : ℝ) :
    haversine_distance lat1 lon1 lat2 lon2 =
      haversine_distance lat2 lon2 lat1 lon1 := by
  have hsin : ∀ x y : ℝ, Real.sin ((x - y) / 2) ^ 2 =
      Real.sin ((y - x) / 2) ^ 2 := by
    intro x y
    rw [show (x - y) / 2 = -((y - x) / 2) by ring, Real.sin_neg]
    ring
  simp only [haversine_distance]
  rw [hsin (radians lat2) (radians lat1), hsin (radians lon2) (radians lon1),
    mul_comm (Real.cos (radians lat1)) (Real.cos (radians lat2))]

/-- Rounding zero to two decimals gives zero. -/
theorem pyRound2_zero : pyRound2 0 = 0 := by
  rw [pyRound2, pyRoundHalfEven]
  norm_num

/-- The haversine distance from the origin to the pole (latitude 90,
longitude 0) is 6371000 times pi over 2. -/
theorem haversine_pole :
    haversine_distance 0 0 90 0 = 6371000 * (Real.pi / 2) := by
  have hpos : 0 < Real.sqrt (1/2) := Real.sqrt_pos.mpr (by norm_num)
  have h1 : radians 0 = 0 := by
    rw [radians]
    ring
  have h2 : radians 90 = Real.pi / 2 := by
    rw [radians]
    ring
  simp only [haversine_distance]
  rw [h1, h2]
  have ha : Real.sin ((Real.pi / 2 - 0) / 2) ^ 2 +
      Real.cos 0 * Real.cos (Real.pi / 2) * Real.sin ((0 - 0) / 2) ^ 2 =
      1/2 := by
    rw [sub_zero, show Real.pi / 2 / 2 = Real.pi / 4 by ring,
      Real.sin_pi_div_four, Real.cos_pi_div_two, sub_self, zero_div,
      Real.sin_zero]
    rw [div_pow, Real.sq_sqrt (by norm_num : (0:ℝ) ≤ 2)]
    norm_num
  rw [ha, show (1:ℝ) - 1/2 = 1/2 by norm_num]
  rw [atan2, if_pos hpos, div_self (ne_of_gt hpos), Real.arctan_one]
  ring

/-- C8 counterexample: the claim says Verify returns distanceMeters equal
to the haversine distance, but the handler returns round(distance, 2);
for the profile at the origin and the query point (90, 0) the distance is
3185500 times pi, an irrational number, while the returned value is an
integer divided by 100, so the two differ. -/
theorem verify_distance_rounding_counterexample :
    (verify_against_profile refProfile 90 0).distance_from_profile_meters ≠
      haversine_distance 0 0 90 0 := by
  have hirr : Irrational (6371000 * (Real.pi / 2)) := by
    have hcast : (6371000 : ℝ) * (Real.pi / 2) = (3185500 : ℚ) * Real.pi := by
      push_cast
      ring
    rw [hcast]
    exact irrational_pi.rat_mul (by norm_num)
  show pyRound2 (haversine_distance 0 0 90 0) ≠ haversine_distance 0 0 90 0
  rw [haversine_pole]
  intro heq
  apply hirr
  refine ⟨(pyRoundHalfEven (6371000 * (Real.pi / 2) * 100) : ℚ) / 100, ?_⟩
  have hval :
      (((pyRoundHalfEven (6371000 * (Real.pi / 2) * 100) : ℚ) / 100 : ℚ) :
        ℝ) = pyRound2 (6371000 * (Real.pi / 2)) := by
    rw [pyRound2]
    push_cast
    ring
  rw [hval, heq]

/-- C8 (amended): Verify returns distanceMeters equal to the haversine
distance (Earth radius 6371000) rounded to two decimal places, passed
compares the unrounded distance with the profile radius, the distance
function is symmetric, and verifying the profile reference point itself
returns distanceMeters = 0 with passed holding exactly when the radius is
nonnegative (true for the default radius 50). -/
theorem verify_against_profile_spec
    (p : LocationProfile) (lat lon lat1 lon1 lat2 lon2 : ℝ) :
    (verify_against_profile p lat lon).distance_from_profile_meters =
      pyRound2 (haversine_distance p.latitude p.longitude lat lon) ∧
    ((verify_against_profile p lat lon).verification_passed ↔
      haversine_distance p.latitude p.longitude lat lon ≤
        p.verification_radius_meters) ∧
    haversine_distance lat1 lon1 lat2 lon2 =
      haversine_distance lat2 lon2 lat1 lon1 ∧
    (verify_against_profile p p.latitude
        p.longitude).distance_from_profile_meters = 0 ∧
    ((verify_against_profile p p.latitude
        p.longitude).verification_passed ↔
      0 ≤ p.verification_radius_meters) := by
  refine ⟨rfl, Iff.rfl, haversine_comm lat1 lon1 lat2 lon2, ?_, ?_⟩
  · show pyRound2 (haversine_distance p.latitude p.longitude p.latitude
      p.longitude) = 0
    rw [haversine_self, pyRound2_zero]
  · show haversine_distance p.latitude p.longitude p.latitude p.longitude ≤
      p.verification_radius_meters ↔ 0 ≤ p.verification_radius_meters
    rw [haversine_self]

end Joyo
